import Mathlib

/-!
Shallow embedding of the contact-directory program (`cli_bot_classes.py`,
`cli_bot.py`): proleptic-Gregorian date arithmetic as in Python's `datetime.date`,
phone normalization, contact records, the address book, the birthday scheduler,
search and JSON persistence, together with theorems settling the specification
claims.
-/

/-- A calendar date, as Python's `datetime.date` triple (year, month, day). -/
structure Date where
  year : Nat
  month : Nat
  day : Nat
deriving DecidableEq, Repr

/-- Gregorian leap-year rule, as used by `datetime.date`. -/
def isLeap (y : Nat) : Bool :=
  y % 4 = 0 && (y % 100 ≠ 0 || y % 400 = 0)

/-- Number of days in month `m` of year `y` (1-based months). -/
def daysInMonth (y m : Nat) : Nat :=
  if m = 2 then (if isLeap y then 29 else 28)
  else if m = 4 ∨ m = 6 ∨ m = 9 ∨ m = 11 then 30
  else 31

/-- The triples `datetime.date(y, m, d)` accepts: years 1..9999, real calendar dates. -/
def validDate (y m d : Nat) : Bool :=
  1 ≤ y && y ≤ 9999 && 1 ≤ m && m ≤ 12 && 1 ≤ d && d ≤ daysInMonth y m

/-- Days in all years strictly before year `y` (proleptic Gregorian). -/
def daysBeforeYear (y : Nat) : Nat :=
  365 * (y - 1) + (y - 1) / 4 - (y - 1) / 100 + (y - 1) / 400

/-- Days before month `m` in a non-leap year (1-based months). -/
def cumMonthDays (m : Nat) : Nat :=
  match m with
  | 1 => 0 | 2 => 31 | 3 => 59 | 4 => 90 | 5 => 120 | 6 => 151
  | 7 => 181 | 8 => 212 | 9 => 243 | 10 => 273 | 11 => 304 | 12 => 334
  | _ => 0

/-- Days in year `y` strictly before month `m` begins. -/
def daysBeforeMonth (y m : Nat) : Nat :=
  cumMonthDays m + (if 3 ≤ m ∧ isLeap y then 1 else 0)

/-- `date.toordinal()`: day count with 0001-01-01 ↦ 1. -/
def toOrdinal (dt : Date) : Nat :=
  daysBeforeYear dt.year + daysBeforeMonth dt.year dt.month + dt.day

/-- `date.weekday()`: Monday = 0 … Sunday = 6 (0001-01-01 is a Monday). -/
def weekday (dt : Date) : Nat :=
  (toOrdinal dt + 6) % 7

/-- Largest month `m ≤ bound` whose first day is at or before the 0-based
day-of-year `doy`; helper for `fromOrdinal`. -/
def monthOfDoy (y doy : Nat) : Nat → Nat
  | 0 => 1
  | m + 1 => if daysBeforeMonth y (m + 1) ≤ doy then m + 1 else monthOfDoy y doy m

/-- `date.fromordinal(n)`: inverse of `toOrdinal` for ordinals of valid dates. -/
def fromOrdinal (n : Nat) : Date :=
  let n0 := n - 1
  let n400 := n0 / 146097
  let r1 := n0 % 146097
  let n100 := r1 / 36524
  let r2 := r1 % 36524
  let n4 := r2 / 1461
  let r3 := r2 % 1461
  let n1 := r3 / 365
  let r4 := r3 % 365
  let y := n400 * 400 + n100 * 100 + n4 * 4 + n1 + 1
  if n1 = 4 ∨ n100 = 4 then ⟨y - 1, 12, 31⟩
  else
    let m := monthOfDoy y r4 12
    ⟨y, m, r4 - daysBeforeMonth y m + 1⟩

/-- `date + timedelta(days=d)`: Python adds on ordinals. -/
def addDays (dt : Date) (d : Int) : Date :=
  fromOrdinal ((toOrdinal dt : Int) + d).toNat

/-- Modelled from the spec: the program imports `normalize_phone` from a module
`normalize_phone` that is not among the repository's source files. Per spec §4.1
the accepted grammar is an optional leading `+`, 10–15 digits, and optional
separator characters (spaces, dashes, dots, parentheses) that are stripped;
anything else is rejected (InvalidPhone). The canonical form is the optional
`+` followed by the digits. -/
def normalize_phone (raw : String) : Except String String :=
  let cs := raw.data.filter fun c =>
    !(c == ' ' || c == '-' || c == '.' || c == '(' || c == ')')
  let digits := match cs with
    | '+' :: ds => ds
    | ds => ds
  if digits.all Char.isDigit && 10 ≤ digits.length && digits.length ≤ 15 then
    Except.ok (String.mk cs)
  else
    Except.error ("InvalidPhone: " ++ raw)

/-- A contact record (`Record`): a name, the ordered list of stored phone
values (each `Phone.value`, already normalized), and an optional birthday. -/
structure Record where
  name : String
  phones : List String
  birthday : Option Date
deriving DecidableEq, Repr

/-- `Record.add_phone`: the source first tests the RAW string for membership in
the stored (normalized) values and raises "already exists" on a hit; otherwise
it appends `Phone(phone)`, whose constructor normalizes (and may raise). -/
def Record.add_phone (r : Record) (phone : String) : Except String Record :=
  if r.phones.contains phone then
    Except.error ("Phone " ++ phone ++ " already exists")
  else
    (normalize_phone phone).map fun v => { r with phones := r.phones ++ [v] }

/-- Loop body of `Record.edit_phone`: scan for the first stored value equal to
`normalize_phone phone` and overwrite it in place with `normalize_phone
new_phone`; `none` when the loop falls through (Python returns `None`). An
`Except.error` models an uncaught `ValueError` from `normalize_phone`. -/
def edit_phone_go (phone new_phone : String) : List String → Except String (Option (List String))
  | [] => Except.ok none
  | p :: ps => do
    let ov ← normalize_phone phone
    if p = ov then
      let nv ← normalize_phone new_phone
      pure (some (nv :: ps))
    else
      (edit_phone_go phone new_phone ps).map (Option.map (p :: ·))

/-- `Record.edit_phone`, keeping the post-state record (the source mutates
`p.value` in place and returns a message, or `None` when nothing matched). -/
def Record.edit_phone (r : Record) (phone new_phone : String) : Except String Record :=
  (edit_phone_go phone new_phone r.phones).map fun o =>
    match o with
    | some ps => { r with phones := ps }
    | none => r

/-- Loop body of `Record.search_phone`: return the first stored value equal to
`normalize_phone phone`, `none` when the loop falls through. -/
def search_phone_go (phone : String) : List String → Except String (Option String)
  | [] => Except.ok none
  | p :: ps => do
    let v ← normalize_phone phone
    if p = v then pure (some p) else search_phone_go phone ps

/-- `Record.search_phone`. -/
def Record.search_phone (r : Record) (phone : String) : Except String (Option String) :=
  search_phone_go phone r.phones

/-- Python `int(s)` on the strings relevant here (as a char list): an optional
sign followed by one or more digits. -/
def pyInt (s : List Char) : Option Int :=
  match s with
  | '-' :: ds => if ds ≠ [] && ds.all Char.isDigit then
      some (-(ds.foldl (fun a c => a * 10 + (c.toNat - 48)) 0 : Nat)) else none
  | '+' :: ds => if ds ≠ [] && ds.all Char.isDigit then
      some ((ds.foldl (fun a c => a * 10 + (c.toNat - 48)) 0 : Nat)) else none
  | ds => if ds ≠ [] && ds.all Char.isDigit then
      some ((ds.foldl (fun a c => a * 10 + (c.toNat - 48)) 0 : Nat)) else none

/-- Python `value.split('.')` on a char list. -/
def splitDots : List Char → List (List Char)
  | [] => [[]]
  | c :: cs =>
    let rest := splitDots cs
    if c = '.' then [] :: rest
    else
      match rest with
      | g :: gs => (c :: g) :: gs
      | [] => [[c]]

/-- `Birthday.__init__`: split on '.', convert the three parts with `int`, and
build `date(year, month, day)`; any `ValueError` is re-raised with the fixed
message. -/
def parseBirthday (value : String) : Except String Date :=
  let msg := "Invalid date format. Use DD.MM.YYYY"
  match (splitDots value.data).map pyInt with
  | [some d, some m, some y] =>
    if 1 ≤ y && 1 ≤ m && 1 ≤ d &&
        validDate y.toNat m.toNat d.toNat then
      Except.ok ⟨y.toNat, m.toNat, d.toNat⟩
    else
      Except.error msg
  | _ => Except.error msg

/-- `Record.add_birthday`: the source wraps `Birthday(value)` in
`try/except ValueError` and only PRINTS the error, so the call always returns
normally; on failure the stored birthday is left unchanged. -/
def Record.add_birthday (r : Record) (value : String) : Record :=
  match parseBirthday value with
  | Except.ok dt => { r with birthday := some dt }
  | Except.error _ => r

/-- The address book's backing dict, `self.data`: an insertion-ordered mapping
from name to record (Python dict semantics). -/
def AddressBook := List (String × Record)

/-- Python dict assignment `data[k] = v`: overwrite in place when the key
exists (keeping its position), else append. -/
def dictSet : List (String × Record) → String → Record → List (String × Record)
  | [], k, v => [(k, v)]
  | (k', v') :: rest, k, v =>
    if k' = k then (k, v) :: rest else (k', v') :: dictSet rest k v

/-- Python `data.get(k)`. -/
def dictGet : List (String × Record) → String → Option Record
  | [], _ => none
  | (k', v') :: rest, k => if k' = k then some v' else dictGet rest k

/-- `AddressBook.add_record`: `self.data[record.name.value] = record` — no
duplicate-name check of any kind. -/
def add_record (book : List (String × Record)) (r : Record) : List (String × Record) :=
  dictSet book r.name r

/-- `AddressBook.find`. -/
def find (book : List (String × Record)) (name : String) : Option Record :=
  dictGet book name

/-- One iteration of the `get_upcoming_birthdays` loop. `Except.error` models
the uncaught Python exception: `record.birthday` is dereferenced with no
`None` check (AttributeError), and `date(today.year, month, day)` can raise
`ValueError` (Feb 29 in a non-leap year). -/
def upcomingStep (today : Date) (r : Record) : Except String (Option (String × Date × Date)) :=
  match r.birthday with
  | none => Except.error "AttributeError: 'NoneType' object has no attribute 'value'"
  | some b =>
    if validDate today.year b.month b.day then
      let bty : Date := ⟨today.year, b.month, b.day⟩
      let d0 : Int := (toOrdinal bty : Int) - (toOrdinal today : Int)
      let d : Int := d0 + (if weekday bty = 5 then 2 else if weekday bty = 6 then 1 else 0)
      if 0 ≤ d ∧ d ≤ 7 then
        Except.ok (some (r.name, bty, addDays today d))
      else
        Except.ok none
    else
      Except.error "ValueError: day is out of range for month"

/-- The `get_upcoming_birthdays` loop over `self.data.values()` in order,
collecting the appended `(name, birthday_this_year, congrats_day)` triples. -/
def upcomingList (today : Date) : List Record → Except String (List (String × Date × Date))
  | [] => Except.ok []
  | r :: rs => do
    let o ← upcomingStep today r
    let rest ← upcomingList today rs
    pure (match o with | some e => e :: rest | none => rest)

/-- Left-pad a numeral with zeros to width `w` (for `str(date)`). -/
def padNum (w n : Nat) : String :=
  let s := toString n
  String.mk (List.replicate (w - s.length) '0') ++ s

/-- Python `str(date)`: ISO `YYYY-MM-DD`. -/
def dateStr (dt : Date) : String :=
  padNum 4 dt.year ++ "-" ++ padNum 2 dt.month ++ "-" ++ padNum 2 dt.day

/-- `AddressBook.get_upcoming_birthdays`: runs the loop and returns the
f-string `"Upcoming birthdays: ..."` (a string, not the list). `today` is
passed explicitly in place of the `date.today()` call. -/
def get_upcoming_birthdays (book : List (String × Record)) (today : Date) : Except String String :=
  (upcomingList today (book.map Prod.snd)).map fun l =>
    "Upcoming birthdays: " ++
      String.intercalate "\n" (l.map fun e => e.1 ++ " on " ++ dateStr e.2.1)

/-- Python's substring test `needle in hay` on char lists: `left` is a
contiguous left part of `hay`. -/
def charsStartWith : List Char → List Char → Bool
  | [], _ => true
  | _ :: _, [] => false
  | c :: cs, h :: hs => c == h && charsStartWith cs hs

/-- Python's substring test `needle in hay` on char lists. -/
def charsContain (hay needle : List Char) : Bool :=
  match hay with
  | [] => needle.isEmpty
  | _ :: hs => charsStartWith needle hay || charsContain hs needle

/-- Python's substring test `needle in hay` on strings. -/
def strContains (hay needle : String) : Bool :=
  charsContain hay.data needle.data

/-- Python `str.lower()` on the ASCII strings handled here. -/
def strLower (s : String) : String :=
  String.mk (s.data.map Char.toLower)

/-- The line `search_contact` prints for a matching entry:
`f"{name}: {'; '.join(phone values)}"`. -/
def renderEntry (kv : String × Record) : String :=
  kv.1 ++ ": " ++ String.intercalate "; " kv.2.phones

/-- `search_contact` (cli_bot.py): for each entry, print it when the lowered
pattern occurs in the lowered name or in any lowered stored phone value; if
nothing was printed, raise `ValueError(f"Contact {pattern} not found.")`.
The result models the sequence of printed lines. -/
def search_contact (pattern : String) (book : List (String × Record)) : Except String (List String) :=
  let lines := book.filterMap fun kv =>
    if strContains (strLower kv.1) (strLower pattern) ||
        kv.2.phones.any (fun p => strContains (strLower p) (strLower pattern)) then
      some (renderEntry kv)
    else
      none
  if lines.isEmpty then
    Except.error ("Contact " ++ pattern ++ " not found.")
  else
    Except.ok lines

/-- The spec's matching predicate for `searchByPattern`, stated from the spec's
words: a case-insensitive substring match against the name or any stored phone
value. -/
def specMatches (pattern : String) (kv : String × Record) : Bool :=
  strContains (strLower kv.1) (strLower pattern) ||
    kv.2.phones.any fun p => strContains (strLower p) (strLower pattern)

/-- JSON values, as produced by `json.load` / consumed by `json.dump`. -/
inductive Json where
  | null : Json
  | str : String → Json
  | int : Int → Json
  | bool : Bool → Json
  | arr : List Json → Json
  | obj : List (String × Json) → Json
deriving Repr

/-- Python objects as seen by `json.dump`'s default encoder: the JSON-encodable
builtins, plus the two user-defined class instances the program hands it —
`Record` objects and the `AddressBook` itself (a `UserDict`, not a `dict`).
`json.JSONEncoder.default` raises `TypeError` on any non-builtin object. -/
inductive PyObj where
  | pyNone : PyObj
  | pyStr : String → PyObj
  | pyInt : Int → PyObj
  | pyBool : Bool → PyObj
  | pyList : List PyObj → PyObj
  | pyDict : List (String × PyObj) → PyObj
  | recordInst : Record → PyObj
  | addressBookInst : List (String × PyObj) → PyObj
deriving Repr

mutual

/-- `json.dump` on a Python object: builtins are encoded structurally; any
other object raises `TypeError: Object of type ... is not JSON serializable`. -/
def jsonDump : PyObj → Except String Json
  | PyObj.pyNone => Except.ok Json.null
  | PyObj.pyStr s => Except.ok (Json.str s)
  | PyObj.pyInt n => Except.ok (Json.int n)
  | PyObj.pyBool b => Except.ok (Json.bool b)
  | PyObj.pyList xs => (jsonDumpList xs).map Json.arr
  | PyObj.pyDict kvs => (jsonDumpObj kvs).map Json.obj
  | PyObj.recordInst _ =>
    Except.error "TypeError: Object of type Record is not JSON serializable"
  | PyObj.addressBookInst _ =>
    Except.error "TypeError: Object of type AddressBook is not JSON serializable"

/-- `json.dump` elementwise on a list. -/
def jsonDumpList : List PyObj → Except String (List Json)
  | [] => Except.ok []
  | x :: xs => do
    let j ← jsonDump x
    let js ← jsonDumpList xs
    pure (j :: js)

/-- `json.dump` elementwise on a dict's items. -/
def jsonDumpObj : List (String × PyObj) → Except String (List (String × Json))
  | [] => Except.ok []
  | (k, v) :: rest => do
    let j ← jsonDump v
    let js ← jsonDumpObj rest
    pure ((k, j) :: js)

end

/-- `save_phonebook` (cli_bot.py): `json.dump(phonebook, file)` where
`phonebook` is the `AddressBook` instance whose `data` values are `Record`
objects. The result models what is written to the file. -/
def save_phonebook (book : List (String × Record)) : Except String Json :=
  jsonDump (PyObj.addressBookInst (book.map fun kv => (kv.1, PyObj.recordInst kv.2)))

/-- `load_phonebook` (cli_bot.py): `AddressBook(json.load(file))`, with `none`
for a missing file (`FileNotFoundError` → empty book). `UserDict.__init__`
copies the parsed mapping as-is, so the stored values are the RAW parsed JSON
objects, not `Record`s. A non-mapping argument raises `TypeError`. -/
def load_phonebook : Option Json → Except String (List (String × Json))
  | none => Except.ok []
  | some (Json.obj kvs) => Except.ok kvs
  | some _ => Except.error "TypeError: argument to AddressBook is not a mapping"

/-- The scheduler's day count for one record, as the spec describes it:
`daysUntil = birthdayThisYear - today` in whole days (ordinal difference),
shifted by +2 when `birthdayThisYear` is a Saturday (Python `weekday() = 5`,
the weekend's first day), by +1 when a Sunday (`weekday() = 6`), by 0
otherwise. -/
def shiftedDays (today bty : Date) : Int :=
  ((toOrdinal bty : Int) - (toOrdinal today : Int)) +
    (if weekday bty = 5 then 2 else if weekday bty = 6 then 1 else 0)

theorem ok_ite {α : Type} (c : Prop) [Decidable c] (a b : α) :
    (if c then Except.ok a else Except.ok b) = (Except.ok (if c then a else b) : Except String α) := by
  by_cases h : c
  · rw [if_pos h, if_pos h]
  · rw [if_neg h, if_neg h]

theorem upcomingStep_some_eq (today : Date) (r : Record) (b : Date)
    (hb : r.birthday = some b) (hv : validDate today.year b.month b.day = true) :
    upcomingStep today r =
      Except.ok (if 0 ≤ shiftedDays today ⟨today.year, b.month, b.day⟩ ∧
          shiftedDays today ⟨today.year, b.month, b.day⟩ ≤ 7 then
        some (r.name, (⟨today.year, b.month, b.day⟩ : Date),
          addDays today (shiftedDays today ⟨today.year, b.month, b.day⟩))
      else none) := by
  simp [upcomingStep, hb, hv, shiftedDays]
  rw [ok_ite]

theorem upcomingList_singleton (today : Date) (r : Record) (b : Date)
    (hb : r.birthday = some b) (hv : validDate today.year b.month b.day = true) :
    upcomingList today [r] =
      Except.ok (if 0 ≤ shiftedDays today ⟨today.year, b.month, b.day⟩ ∧
          shiftedDays today ⟨today.year, b.month, b.day⟩ ≤ 7 then
        [(r.name, (⟨today.year, b.month, b.day⟩ : Date),
          addDays today (shiftedDays today ⟨today.year, b.month, b.day⟩))]
      else []) := by
  have h := upcomingStep_some_eq today r b hb hv
  by_cases hc : 0 ≤ shiftedDays today ⟨today.year, b.month, b.day⟩ ∧
      shiftedDays today ⟨today.year, b.month, b.day⟩ ≤ 7
  · simp only [upcomingList]
    rw [h, if_pos hc, if_pos hc]
    rfl
  · simp only [upcomingList]
    rw [h, if_neg hc, if_neg hc]
    rfl

/-- C1: the claim says `get_upcoming_birthdays` skips records without a
birthday and never fails. The code dereferences `record.birthday.value` with
no `None` check, so a phonebook holding one record without a birthday makes
the call raise `AttributeError` instead of returning a result. -/
theorem get_upcoming_birthdays_crashes_on_missing_birthday :
    get_upcoming_birthdays [("Dave", ⟨"Dave", ["+380501234567"], none⟩)] ⟨2024, 6, 10⟩ =
      Except.error "AttributeError: 'NoneType' object has no attribute 'value'" := by
  rfl

/-- C2: for a record with birthday `b`, when `b`'s month/day exists in
`today`'s year, the scheduler includes the record exactly when the shifted
day count (`shiftedDays`: ordinal difference plus 2 for a Saturday
`birthdayThisYear`, 1 for a Sunday, 0 otherwise) lies in `[0, 7]`, with
`congratulationDate = today + daysUntil` (`addDays`). -/
theorem upcoming_weekend_shift_window (today : Date) (r : Record) (b : Date)
    (hb : r.birthday = some b) (hv : validDate today.year b.month b.day = true) :
    upcomingList today [r] =
      Except.ok (if 0 ≤ shiftedDays today ⟨today.year, b.month, b.day⟩ ∧
          shiftedDays today ⟨today.year, b.month, b.day⟩ ≤ 7 then
        [(r.name, (⟨today.year, b.month, b.day⟩ : Date),
          addDays today (shiftedDays today ⟨today.year, b.month, b.day⟩))]
      else []) :=
  upcomingList_singleton today r b hb hv

/-- C2 witness: the spec's §8 scenario — today Monday 2024-06-10, birthday
15.06.1990; 2024-06-15 is a Saturday, so the shifted day count is 5 + 2 = 7,
inside the window, and the congratulation date is 2024-06-17. -/
theorem upcoming_weekend_shift_window_witness :
    (⟨"Ann", [], some ⟨1990, 6, 15⟩⟩ : Record).birthday = some ⟨1990, 6, 15⟩ ∧
    validDate 2024 6 15 = true ∧
    upcomingList ⟨2024, 6, 10⟩ [⟨"Ann", [], some ⟨1990, 6, 15⟩⟩] =
      Except.ok (if 0 ≤ shiftedDays ⟨2024, 6, 10⟩ ⟨2024, 6, 15⟩ ∧
          shiftedDays ⟨2024, 6, 10⟩ ⟨2024, 6, 15⟩ ≤ 7 then
        [("Ann", (⟨2024, 6, 15⟩ : Date),
          addDays ⟨2024, 6, 10⟩ (shiftedDays ⟨2024, 6, 10⟩ ⟨2024, 6, 15⟩))]
      else []) :=
  ⟨rfl, by decide,
    upcoming_weekend_shift_window ⟨2024, 6, 10⟩ ⟨"Ann", [], some ⟨1990, 6, 15⟩⟩
      ⟨1990, 6, 15⟩ rfl (by decide)⟩

/-- C3 counterexample: today Monday 2024-06-10, birthday 09.06.1990.
`birthdayThisYear` 2024-06-09 is strictly before today (a Sunday one day in
the past), yet the +1 Sunday shift brings the day count to 0 and the record
IS included, with congratulation date 2024-06-10 — refuting "a record whose
birthdayThisYear is strictly before today is excluded". -/
theorem upcoming_includes_passed_sunday :
    toOrdinal ⟨2024, 6, 9⟩ < toOrdinal ⟨2024, 6, 10⟩ ∧
    upcomingList ⟨2024, 6, 10⟩ [⟨"Bob", [], some ⟨1990, 6, 9⟩⟩] =
      Except.ok [("Bob", ⟨2024, 6, 9⟩, ⟨2024, 6, 10⟩)] :=
  ⟨by decide, by rfl⟩

/-- C3 amended: a record whose day count is still negative AFTER the weekend
shift is excluded (the scheduler never wraps the birthday to next year); a
`birthdayThisYear` on the weekend at most 2 days (Saturday) or 1 day (Sunday)
before today is shifted into the window and included. -/
theorem upcoming_excludes_shifted_negative (today : Date) (r : Record) (b : Date)
    (hb : r.birthday = some b) (hv : validDate today.year b.month b.day = true)
    (hneg : shiftedDays today ⟨today.year, b.month, b.day⟩ < 0) :
    upcomingList today [r] = Except.ok [] := by
  rw [upcomingList_singleton today r b hb hv,
    if_neg (fun hc => absurd hneg (not_lt.mpr hc.1))]

/-- C3 amended witness: today 2024-06-10, birthday 01.06.1990; the shifted day
count of 2024-06-01 (a Saturday, −9 + 2 = −7) is negative, so the record is
excluded. -/
theorem upcoming_excludes_shifted_negative_witness :
    (⟨"Cid", [], some ⟨1990, 6, 1⟩⟩ : Record).birthday = some ⟨1990, 6, 1⟩ ∧
    validDate 2024 6 1 = true ∧
    shiftedDays ⟨2024, 6, 10⟩ ⟨2024, 6, 1⟩ < 0 ∧
    upcomingList ⟨2024, 6, 10⟩ [⟨"Cid", [], some ⟨1990, 6, 1⟩⟩] = Except.ok [] :=
  ⟨rfl, by decide, by decide,
    upcoming_excludes_shifted_negative ⟨2024, 6, 10⟩ ⟨"Cid", [], some ⟨1990, 6, 1⟩⟩
      ⟨1990, 6, 1⟩ rfl (by decide) (by decide)⟩

theorem dictGet_dictSet_self (l : List (String × Record)) (k : String) (v : Record) :
    dictGet (dictSet l k v) k = some v := by
  induction l with
  | nil => simp [dictSet, dictGet]
  | cons kv rest ih =>
    by_cases h : kv.1 = k
    · simp [dictSet, dictGet, h]
    · simp [dictSet, dictGet, h, ih]

theorem dictGet_dictSet_other (l : List (String × Record)) (k : String) (v : Record)
    (k' : String) (hk : k' ≠ k) :
    dictGet (dictSet l k v) k' = dictGet l k' := by
  induction l with
  | nil => simp [dictSet, dictGet, Ne.symm hk]
  | cons kv rest ih =>
    by_cases h : kv.1 = k
    · simp [dictSet, dictGet, h, Ne.symm hk]
    · simp [dictSet, dictGet, h, ih]

/-- C4 counterexample: `add_record` on a book that already holds the key
"Alice" does not fail with `DuplicateContact` — it returns a book in which the
existing entry has been replaced by the new record. -/
theorem add_record_overwrites_duplicate :
    add_record [("Alice", ⟨"Alice", ["+380501111111"], none⟩)]
        ⟨"Alice", ["+380502222222"], none⟩ =
      [("Alice", ⟨"Alice", ["+380502222222"], none⟩)] ∧
    (⟨"Alice", ["+380502222222"], none⟩ : Record) ≠ ⟨"Alice", ["+380501111111"], none⟩ := by
  exact ⟨by rfl, by decide⟩

/-- C4 amended: `add_record` never fails; it stores the record under its name
key, silently replacing any existing entry with that key (last write wins),
and leaves entries under other keys untouched. -/
theorem add_record_last_write_wins (book : List (String × Record)) (r : Record)
    (k : String) (hk : k ≠ r.name) :
    dictGet (add_record book r) r.name = some r ∧
    dictGet (add_record book r) k = dictGet book k :=
  ⟨dictGet_dictSet_self book r.name r, dictGet_dictSet_other book r.name r k hk⟩

/-- C4 amended witness: adding a second "Alice" record replaces the first and
leaves the "Zed" lookup unchanged. -/
theorem add_record_last_write_wins_witness :
    "Zed" ≠ (⟨"Alice", ["+380502222222"], none⟩ : Record).name ∧
    (dictGet (add_record [("Alice", ⟨"Alice", ["+380501111111"], none⟩)]
        ⟨"Alice", ["+380502222222"], none⟩) "Alice" =
      some ⟨"Alice", ["+380502222222"], none⟩ ∧
    dictGet (add_record [("Alice", ⟨"Alice", ["+380501111111"], none⟩)]
        ⟨"Alice", ["+380502222222"], none⟩) "Zed" =
      dictGet [("Alice", ⟨"Alice", ["+380501111111"], none⟩)] "Zed") :=
  ⟨by decide,
    add_record_last_write_wins [("Alice", ⟨"Alice", ["+380501111111"], none⟩)]
      ⟨"Alice", ["+380502222222"], none⟩ "Zed" (by decide)⟩

/-- C5: the claim says `add_phone` fails with `DuplicatePhone` whenever the
normalization of the input is already stored, so `add_phone x; add_phone x`
fails the second call for every valid raw `x`. The code compares the RAW
input against the stored (normalized) values, so for the valid raw
`"+380-50-123-45-67"` — whose normalization `"+380501234567"` differs from
the raw string — both calls succeed and the record ends up holding the same
normalized value twice. -/
theorem add_phone_raw_comparison_misses_duplicate :
    (do
      let r1 ← Record.add_phone ⟨"Eve", [], none⟩ "+380-50-123-45-67"
      Record.add_phone r1 "+380-50-123-45-67") =
      Except.ok ⟨"Eve", ["+380501234567", "+380501234567"], none⟩ ∧
    normalize_phone "+380-50-123-45-67" = Except.ok "+380501234567" := by
  exact ⟨by rfl, by rfl⟩

/-- C6 counterexample: the claim says `add_birthday` fails with
`InvalidBirthday` surfaced to the caller on an impossible date such as
29.02.2021. `Birthday.__init__` does reject it, but `Record.add_birthday`
catches the `ValueError` and only prints it, returning normally with the
stored birthday unchanged — no failure reaches the caller. -/
theorem add_birthday_swallows_invalid_date :
    Record.add_birthday ⟨"Fay", [], some ⟨2000, 1, 1⟩⟩ "29.02.2021" =
      ⟨"Fay", [], some ⟨2000, 1, 1⟩⟩ ∧
    parseBirthday "29.02.2021" = Except.error "Invalid date format. Use DD.MM.YYYY" := by
  exact ⟨by rfl, by rfl⟩

/-- C6 amended: `Birthday` construction rejects every malformed or impossible
calendar date, but `Record.add_birthday` catches the error and returns
normally with the stored birthday unchanged (the failure is printed, not
surfaced to the caller); on every input that parses as a valid `DD.MM.YYYY`
date it overwrites any existing birthday (last write wins). -/
theorem add_birthday_no_failure_channel (r : Record) (v : String) :
    (∀ e, parseBirthday v = Except.error e → Record.add_birthday r v = r) ∧
    (∀ dt, parseBirthday v = Except.ok dt →
      Record.add_birthday r v = { r with birthday := some dt }) := by
  constructor
  · intro e he
    simp [Record.add_birthday, he]
  · intro dt h
    simp [Record.add_birthday, h]

/-- C6 amended witness: a valid input 15.06.1990 overwrites the previously
stored birthday 01.01.2000. -/
theorem add_birthday_no_failure_channel_witness :
    parseBirthday "15.06.1990" = Except.ok ⟨1990, 6, 15⟩ ∧
    Record.add_birthday ⟨"Fay", [], some ⟨2000, 1, 1⟩⟩ "15.06.1990" =
      ⟨"Fay", [], some ⟨1990, 6, 15⟩⟩ :=
  ⟨by rfl,
    (add_birthday_no_failure_channel ⟨"Fay", [], some ⟨2000, 1, 1⟩⟩ "15.06.1990").2
      ⟨1990, 6, 15⟩ (by rfl)⟩

/-- C7: the claim says the directory round-trips through `save_phonebook` then
`load_phonebook`. `json.dump` has no encoder for the `AddressBook` (a
`UserDict`, not a `dict`) or for `Record` objects, so `save_phonebook` raises
`TypeError` on every phonebook — already on a one-contact book — and the
round-trip never gets past serialization. -/
theorem save_phonebook_always_raises :
    save_phonebook [("Alice", ⟨"Alice", ["+380501111111"], some ⟨1990, 6, 15⟩⟩)] =
      Except.error "TypeError: Object of type AddressBook is not JSON serializable" := by
  simp [save_phonebook, jsonDump]

/-- C8 counterexample: on a book whose only entry matches neither by name nor
by phone, `search_contact` raises `ValueError("Contact zzz not found.")`
instead of returning an empty sequence. -/
theorem search_contact_raises_on_no_match :
    search_contact "zzz" [("Alice", ⟨"Alice", ["+380501111111"], none⟩)] =
      Except.error "Contact zzz not found." := by
  rfl

theorem filterMap_ite_eq_map_filter {α β : Type} (p : α → Bool) (f : α → β) :
    ∀ l : List α, (l.filterMap fun x => if p x then some (f x) else none) = (l.filter p).map f
  | [] => rfl
  | x :: xs => by
    by_cases h : p x = true
    · simp [List.filterMap_cons, List.filter_cons, h, filterMap_ite_eq_map_filter p f xs]
    · simp [List.filterMap_cons, List.filter_cons, h, filterMap_ite_eq_map_filter p f xs]

/-- `searchByPattern` as the spec words it: collect the entries matched
case-insensitively by name or any stored phone value (`specMatches`), and
report "not found" exactly when there are none. -/
def searchSpec (pattern : String) (book : List (String × Record)) : Except String (List String) :=
  let hits := (book.filter (specMatches pattern)).map renderEntry
  if hits.isEmpty then Except.error ("Contact " ++ pattern ++ " not found.")
  else Except.ok hits

/-- C8 amended: `search_contact` matches exactly as the spec says —
case-insensitive substring match against the name or any stored phone value —
and returns the matching entries in book order; but when nothing matches it
raises `ValueError(f"Contact {pattern} not found.")` rather than returning an
empty sequence. -/
theorem search_contact_matches_or_raises (pattern : String) (book : List (String × Record)) :
    search_contact pattern book = searchSpec pattern book := by
  have h := filterMap_ite_eq_map_filter (specMatches pattern) renderEntry book
  simp only [search_contact, searchSpec]
  rw [← h]
  rfl

theorem search_go_finds_appended (x v : String) (h : normalize_phone x = Except.ok v) :
    ∀ ps : List String, search_phone_go x (ps ++ [v]) = Except.ok (some v)
  | [] => by
    simp only [List.nil_append, search_phone_go]
    rw [h]
    show (if v = v then (pure (some v) : Except String (Option String))
      else search_phone_go x []) = Except.ok (some v)
    rw [if_pos rfl]
    rfl
  | p :: ps => by
    simp only [List.cons_append, search_phone_go]
    rw [h]
    show (if p = v then (pure (some p) : Except String (Option String))
      else search_phone_go x (ps ++ [v])) = Except.ok (some v)
    by_cases hp : p = v
    · rw [if_pos hp, hp]
      rfl
    · rw [if_neg hp]
      exact search_go_finds_appended x v h ps

/-- C9: when `add_phone x` succeeds on a record, `search_phone` with the same
raw value `x` on the resulting record succeeds and returns the normalized
value of `x`. -/
theorem add_phone_then_search_phone (r : Record) (x v : String) (r' : Record)
    (h1 : normalize_phone x = Except.ok v)
    (h2 : Record.add_phone r x = Except.ok r') :
    Record.search_phone r' x = Except.ok (some v) := by
  unfold Record.add_phone at h2
  by_cases hc : r.phones.contains x = true
  · rw [if_pos hc] at h2
    exact Except.noConfusion h2
  · rw [if_neg hc, h1] at h2
    have h3 : Except.ok ({ r with phones := r.phones ++ [v] } : Record) = Except.ok r' := h2
    have h4 := Except.ok.inj h3
    subst h4
    exact search_go_finds_appended x v h1 r.phones

/-- C9 witness: adding "+380501234567" to a fresh record and then searching
for the same raw value returns the normalized value. -/
theorem add_phone_then_search_phone_witness :
    normalize_phone "+380501234567" = Except.ok "+380501234567" ∧
    Record.add_phone ⟨"Zoe", [], none⟩ "+380501234567" =
      Except.ok ⟨"Zoe", ["+380501234567"], none⟩ ∧
    Record.search_phone ⟨"Zoe", ["+380501234567"], none⟩ "+380501234567" =
      Except.ok (some "+380501234567") :=
  ⟨rfl, rfl,
    add_phone_then_search_phone ⟨"Zoe", [], none⟩ "+380501234567" "+380501234567"
      ⟨"Zoe", ["+380501234567"], none⟩ rfl rfl⟩

/-- C10: `edit_phone` re-checks nothing: on a record storing both normalized
values at different positions, replacing the first by the second succeeds and
leaves the record holding the same phone value twice, so the no-duplicate
property `add_phone` tries to maintain is not preserved by `edit_phone`. -/
theorem edit_phone_creates_duplicate :
    Record.edit_phone ⟨"Carl", ["+380501111111", "+380502222222"], none⟩
        "+380501111111" "+380502222222" =
      Except.ok ⟨"Carl", ["+380502222222", "+380502222222"], none⟩ ∧
    ¬ List.Nodup ["+380502222222", "+380502222222"] := by
  exact ⟨by rfl, by decide⟩
